import Mathlib

/-!
Shallow embedding of `src/opennow-stable/src/main/flight/FlightControlsService.ts`
(OpenNOW flight-controls service): HID report decoding (`parseReport`), the
sample-to-gamepad mapping engine (`mapToGamepad` with deadzone/curve/scale),
change detection (`hasGamepadStateChanged`) and the stop lifecycle
(`stopCapture` / `sendConnectedState`).

JavaScript numbers are modelled as rationals (all operations used by the code
are exact on ℚ); `Math.round` is modelled as `fun q => Int.floor (q + 1/2)`,
which agrees with JS round-half-up semantics. Node `Buffer` reads that throw a
`RangeError` when out of bounds are modelled as `Option`-returning reads, so
`parseReport` is an `Option`-valued function and "never throws" becomes
"always returns `some`".
-/

namespace Flight

/-- One axis field of a `FlightHidReportLayout` (shared type `@shared/gfn`). -/
structure AxisField where
  byteOffset : ℕ
  byteCount : ℕ
  littleEndian : Bool
  unsigned : Bool
  rangeMin : ℚ
  rangeMax : ℚ
deriving Repr, DecidableEq

/-- One button field of a `FlightHidReportLayout`. -/
structure ButtonField where
  byteOffset : ℕ
  bitIndex : ℕ
deriving Repr, DecidableEq

/-- The optional hat field of a `FlightHidReportLayout`. -/
structure HatField where
  byteOffset : ℕ
  bitOffset : ℕ
  bitCount : ℕ
  centerValue : ℕ
deriving Repr, DecidableEq

/-- `FlightHidReportLayout`: how to decode one raw HID report. -/
structure FlightHidReportLayout where
  skipReportId : Bool
  axes : List AxisField
  buttons : List ButtonField
  hat : Option HatField
deriving Repr, DecidableEq

/-- `ParsedReport` (FlightControlsService.ts lines 25-29). -/
structure ParsedReport where
  axes : List ℚ
  buttons : List Bool
  hatSwitch : ℤ
deriving Repr, DecidableEq

/-- Axis mapping target (`AxisMapping.target` union type). -/
inductive AxisTarget where
  | leftStickX
  | leftStickY
  | rightStickX
  | rightStickY
  | leftTrigger
  | rightTrigger
deriving Repr, DecidableEq

/-- Response curve (`"linear" | "expo"`); the code tests `curve === "expo"`
and treats anything else as linear. -/
inductive Curve where
  | linear
  | expo
deriving Repr, DecidableEq

/-- `AxisMapping` of a `FlightProfile`. -/
structure AxisMapping where
  sourceIndex : ℕ
  target : AxisTarget
  inverted : Bool
  deadzone : ℚ
  sensitivity : ℚ
  curve : Curve
deriving Repr, DecidableEq

/-- `ButtonMapping` of a `FlightProfile`. -/
structure ButtonMapping where
  sourceIndex : ℕ
  targetButton : ℕ
deriving Repr, DecidableEq

/-- The part of `FlightProfile` consumed by `mapToGamepad`. -/
structure FlightProfile where
  axisMappings : List AxisMapping
  buttonMappings : List ButtonMapping
deriving Repr, DecidableEq

/-- `FlightGamepadState` (shared type `@shared/gfn`): stick fields are int16
values, triggers uint8, `buttons` a bitmask. -/
structure FlightGamepadState where
  controllerId : ℕ
  buttons : ℕ
  leftTrigger : ℤ
  rightTrigger : ℤ
  leftStickX : ℤ
  leftStickY : ℤ
  rightStickX : ℤ
  rightStickY : ℤ
  connected : Bool
deriving Repr, DecidableEq

/-- `FlightControlsState` (shared type `@shared/gfn`), the state-update payload. -/
structure FlightControlsState where
  connected : Bool
  deviceName : String
  axes : List ℚ
  buttons : List Bool
  hatSwitch : ℤ
  rawBytes : List ℕ
deriving Repr, DecidableEq

/-! ### Buffer reads

Node's `Buffer.readUInt8` / `readUInt16LE` / `readUInt16BE` throw a
`RangeError` when the requested bytes are not inside the buffer; that is the
`none` case here. A buffer is a list of bytes (naturals). -/

/-- `buffer.readUInt8(i)`. -/
def readUInt8 (bytes : List ℕ) (i : ℕ) : Option ℕ :=
  if i < bytes.length then some (bytes.getD i 0) else none

/-- `buffer.readUInt16LE(i)`. -/
def readUInt16LE (bytes : List ℕ) (i : ℕ) : Option ℕ :=
  if i + 2 ≤ bytes.length then some (bytes.getD i 0 + 256 * bytes.getD (i + 1) 0)
  else none

/-- `buffer.readUInt16BE(i)`. -/
def readUInt16BE (bytes : List ℕ) (i : ℕ) : Option ℕ :=
  if i + 2 ≤ bytes.length then some (256 * bytes.getD i 0 + bytes.getD (i + 1) 0)
  else none

/-! ### parseReport (FlightControlsService.ts lines 257-311) -/

/-- One iteration of the axis loop of `parseReport`: decode one axis field,
pushing `0` when the field's bytes extend past the end of the buffer. -/
def decodeAxisField (bytes : List ℕ) (offset : ℕ) (a : AxisField) : Option ℚ :=
  let byteIdx := offset + a.byteOffset
  if byteIdx + a.byteCount > bytes.length then some 0
  else do
    let rawValue : ℤ ←
      if a.byteCount = 2 then do
        let r ← if a.littleEndian then readUInt16LE bytes byteIdx
                else readUInt16BE bytes byteIdx
        pure (if a.unsigned = false ∧ r > 32767 then (r : ℤ) - 65536 else (r : ℤ))
      else do
        let r ← readUInt8 bytes byteIdx
        pure (if a.unsigned = false ∧ r > 127 then (r : ℤ) - 256 else (r : ℤ))
    let range : ℚ := a.rangeMax - a.rangeMin
    let normalized : ℚ := if range > 0 then ((rawValue : ℚ) - a.rangeMin) / range else 0
    pure (max 0 (min 1 normalized))

/-- Total version of `decodeAxisField`: the value it yields whenever it does
not hit an out-of-bounds buffer read. -/
def decodeAxisFieldT (bytes : List ℕ) (offset : ℕ) (a : AxisField) : ℚ :=
  let byteIdx := offset + a.byteOffset
  if byteIdx + a.byteCount > bytes.length then 0
  else
    let rawValue : ℤ :=
      if a.byteCount = 2 then
        let r := if a.littleEndian then bytes.getD byteIdx 0 + 256 * bytes.getD (byteIdx + 1) 0
                 else 256 * bytes.getD byteIdx 0 + bytes.getD (byteIdx + 1) 0
        if a.unsigned = false ∧ r > 32767 then (r : ℤ) - 65536 else (r : ℤ)
      else
        let r := bytes.getD byteIdx 0
        if a.unsigned = false ∧ r > 127 then (r : ℤ) - 256 else (r : ℤ)
    let range : ℚ := a.rangeMax - a.rangeMin
    let normalized : ℚ := if range > 0 then ((rawValue : ℚ) - a.rangeMin) / range else 0
    max 0 (min 1 normalized)

/-- One iteration of the button loop of `parseReport`. -/
def decodeButtonField (bytes : List ℕ) (offset : ℕ) (b : ButtonField) : Option Bool :=
  let byteIdx := offset + b.byteOffset
  if byteIdx ≥ bytes.length then some false
  else do
    let byte ← readUInt8 bytes byteIdx
    pure (decide (byte &&& (1 <<< (b.bitIndex % 32)) ≠ 0))

/-- Total version of `decodeButtonField`. -/
def decodeButtonFieldT (bytes : List ℕ) (offset : ℕ) (b : ButtonField) : Bool :=
  let byteIdx := offset + b.byteOffset
  if byteIdx ≥ bytes.length then false
  else decide (bytes.getD byteIdx 0 &&& (1 <<< (b.bitIndex % 32)) ≠ 0)

/-- The hat part of `parseReport`: `-1` when there is no hat field, when its
byte is past the buffer end, or when the extracted value is `centerValue`.
JS shift counts are taken mod 32 as `<<`/`>>` do on 32-bit integers. -/
def decodeHat (bytes : List ℕ) (offset : ℕ) : Option HatField → Option ℤ
  | none => some (-1)
  | some h =>
    let byteIdx := offset + h.byteOffset
    if byteIdx < bytes.length then do
      let byte ← readUInt8 bytes byteIdx
      let hatValue := (byte >>> (h.bitOffset % 32)) &&& ((1 <<< (h.bitCount % 32)) - 1)
      pure (if hatValue = h.centerValue then -1 else (hatValue : ℤ))
    else some (-1)

/-- Total version of `decodeHat`. -/
def decodeHatT (bytes : List ℕ) (offset : ℕ) : Option HatField → ℤ
  | none => -1
  | some h =>
    let byteIdx := offset + h.byteOffset
    if byteIdx < bytes.length then
      let byte := bytes.getD byteIdx 0
      let hatValue := (byte >>> (h.bitOffset % 32)) &&& ((1 <<< (h.bitCount % 32)) - 1)
      if hatValue = h.centerValue then -1 else (hatValue : ℤ)
    else -1

/-- The axis loop of `parseReport`. -/
def parseAxes (bytes : List ℕ) (offset : ℕ) : List AxisField → Option (List ℚ)
  | [] => some []
  | a :: rest => do
    let v ← decodeAxisField bytes offset a
    let vs ← parseAxes bytes offset rest
    pure (v :: vs)

/-- The button loop of `parseReport`. -/
def parseButtons (bytes : List ℕ) (offset : ℕ) : List ButtonField → Option (List Bool)
  | [] => some []
  | b :: rest => do
    let v ← decodeButtonField bytes offset b
    let vs ← parseButtons bytes offset rest
    pure (v :: vs)

/-- `parseReport(data, layout)` (lines 257-311), with out-of-bounds buffer
reads surfacing as `none` (a thrown `RangeError` in Node). -/
def parseReport (data : List ℕ) (layout : FlightHidReportLayout) : Option ParsedReport := do
  let offset := if layout.skipReportId then 1 else 0
  let axes ← parseAxes data offset layout.axes
  let buttons ← parseButtons data offset layout.buttons
  let hatSwitch ← decodeHat data offset layout.hat
  pure { axes := axes, buttons := buttons, hatSwitch := hatSwitch }

/-- The total per-field decode: what `parseReport` returns whenever it does
not hit an out-of-bounds read. -/
def decode (data : List ℕ) (layout : FlightHidReportLayout) : ParsedReport :=
  let offset := if layout.skipReportId then 1 else 0
  { axes := layout.axes.map (decodeAxisFieldT data offset)
    buttons := layout.buttons.map (decodeButtonFieldT data offset)
    hatSwitch := decodeHatT data offset layout.hat }

/-! ### Mapping engine (FlightControlsService.ts lines 313-397) -/

/-- `Math.round`: round half toward positive infinity. -/
def jsRound (q : ℚ) : ℤ := ⌊q + 1 / 2⌋

/-- `applyDeadzone` (lines 371-374), the unsigned deadzone used for triggers. -/
def applyDeadzone (value deadzone : ℚ) : ℚ :=
  if value < deadzone then 0 else (value - deadzone) / (1 - deadzone)

/-- `applyStickDeadzone` (lines 376-381), the signed deadzone used for sticks. -/
def applyStickDeadzone (value deadzone : ℚ) : ℚ :=
  let abs := |value|
  if abs < deadzone then 0
  else
    let sign : ℚ := if value ≥ 0 then 1 else -1
    sign * ((abs - deadzone) / (1 - deadzone))

/-- `applyCurve` (lines 383-388), the trigger response curve. -/
def applyCurve (value sensitivity : ℚ) (curve : Curve) : ℚ :=
  if curve = Curve.expo then value ^ 2 * sensitivity
  else value * sensitivity

/-- `applyStickCurve` (lines 390-397), the stick response curve. -/
def applyStickCurve (value sensitivity : ℚ) (curve : Curve) : ℚ :=
  let sign : ℚ := if value ≥ 0 then 1 else -1
  let abs := |value|
  if curve = Curve.expo then sign * abs ^ 2 * sensitivity
  else value * sensitivity

/-- `Modelled from the spec: inputConstants.ts` (gamepad D-pad bitmask
constants) is not part of the provided sources; the spec only requires the
four directional bits to be OR-able into the button bitmask, so they are
modelled as four distinct bits. -/
def GAMEPAD_DPAD_UP : ℕ := 1

/-- `Modelled from the spec: inputConstants.ts` D-pad Down bit. -/
def GAMEPAD_DPAD_DOWN : ℕ := 2

/-- `Modelled from the spec: inputConstants.ts` D-pad Left bit. -/
def GAMEPAD_DPAD_LEFT : ℕ := 4

/-- `Modelled from the spec: inputConstants.ts` D-pad Right bit. -/
def GAMEPAD_DPAD_RIGHT : ℕ := 8

/-- The trigger arm of the axis-mapping loop (lines 331-337): invert, unsigned
deadzone, curve, scale to `[0,255]`. -/
def triggerValue (rawNormalized : ℚ) (m : AxisMapping) : ℤ :=
  let value := if m.inverted then 1 - rawNormalized else rawNormalized
  let value := applyDeadzone value m.deadzone
  let value := applyCurve value m.sensitivity m.curve
  max 0 (min 255 (jsRound (value * 255)))

/-- The stick arm of the axis-mapping loop (lines 338-349): bipolar rescale,
invert, signed deadzone, curve, scale to `[-32768,32767]`. -/
def stickValue (rawNormalized : ℚ) (m : AxisMapping) : ℤ :=
  let value := rawNormalized * 2 - 1
  let value := if m.inverted then -value else value
  let value := applyStickDeadzone value m.deadzone
  let value := applyStickCurve value m.sensitivity m.curve
  max (-32768) (min 32767 (jsRound (value * 32767)))

/-- One iteration of the axis-mapping loop of `mapToGamepad` (lines 326-351):
skips out-of-range `sourceIndex`, otherwise writes the mapped value into the
targeted field. -/
def applyAxisMapping (parsedAxes : List ℚ) (state : FlightGamepadState)
    (m : AxisMapping) : FlightGamepadState :=
  if h : m.sourceIndex < parsedAxes.length then
    let rawNormalized := parsedAxes.get ⟨m.sourceIndex, h⟩
    if m.target = AxisTarget.leftTrigger ∨ m.target = AxisTarget.rightTrigger then
      let clamped := triggerValue rawNormalized m
      if m.target = AxisTarget.leftTrigger then { state with leftTrigger := clamped }
      else { state with rightTrigger := clamped }
    else
      let clamped := stickValue rawNormalized m
      match m.target with
      | AxisTarget.leftStickX => { state with leftStickX := clamped }
      | AxisTarget.leftStickY => { state with leftStickY := clamped }
      | AxisTarget.rightStickX => { state with rightStickX := clamped }
      | AxisTarget.rightStickY => { state with rightStickY := clamped }
      | _ => state
  else state

/-- One iteration of the button-mapping loop of `mapToGamepad` (lines 353-358). -/
def applyButtonMapping (parsedButtons : List Bool) (state : FlightGamepadState)
    (m : ButtonMapping) : FlightGamepadState :=
  if h : m.sourceIndex < parsedButtons.length then
    if parsedButtons.get ⟨m.sourceIndex, h⟩ then
      { state with buttons := state.buttons ||| m.targetButton }
    else state
  else state

/-- The state `mapToGamepad` has built after the axis- and button-mapping
loops, before the hat folding (lines 313-358). -/
def mapToGamepadPreHat (controllerSlot : ℕ) (parsed : ParsedReport)
    (profile : FlightProfile) : FlightGamepadState :=
  let state : FlightGamepadState :=
    { controllerId := controllerSlot, buttons := 0, leftTrigger := 0, rightTrigger := 0
      leftStickX := 0, leftStickY := 0, rightStickX := 0, rightStickY := 0
      connected := true }
  let state := profile.axisMappings.foldl (applyAxisMapping parsed.axes) state
  profile.buttonMappings.foldl (applyButtonMapping parsed.buttons) state

/-- `mapToGamepad(parsed, profile)` (lines 313-369); the service's
`controllerSlot` field is passed explicitly. -/
def mapToGamepad (controllerSlot : ℕ) (parsed : ParsedReport)
    (profile : FlightProfile) : FlightGamepadState :=
  let state := mapToGamepadPreHat controllerSlot parsed profile
  if parsed.hatSwitch ≥ 0 then
    let hat := parsed.hatSwitch
    let state := if hat = 0 ∨ hat = 1 ∨ hat = 7 then
      { state with buttons := state.buttons ||| GAMEPAD_DPAD_UP } else state
    let state := if hat = 1 ∨ hat = 2 ∨ hat = 3 then
      { state with buttons := state.buttons ||| GAMEPAD_DPAD_RIGHT } else state
    let state := if hat = 3 ∨ hat = 4 ∨ hat = 5 then
      { state with buttons := state.buttons ||| GAMEPAD_DPAD_DOWN } else state
    let state := if hat = 5 ∨ hat = 6 ∨ hat = 7 then
      { state with buttons := state.buttons ||| GAMEPAD_DPAD_LEFT } else state
    state
  else state

/-- `hasGamepadStateChanged(newState)` (lines 399-411); the retained
`lastGamepadState` field is passed explicitly (`none` = no previous state). -/
def hasGamepadStateChanged (last : Option FlightGamepadState)
    (newState : FlightGamepadState) : Bool :=
  match last with
  | none => true
  | some prev =>
    prev.buttons != newState.buttons ||
    prev.leftTrigger != newState.leftTrigger ||
    prev.rightTrigger != newState.rightTrigger ||
    prev.leftStickX != newState.leftStickX ||
    prev.leftStickY != newState.leftStickY ||
    prev.rightStickX != newState.rightStickX ||
    prev.rightStickY != newState.rightStickY

/-! ### Stop lifecycle (FlightControlsService.ts lines 171-188, 413-440)

The mutable fields of `FlightControlsService` that `stopCapture` and
`sendConnectedState` touch, and the IPC messages they send, modelled as a
state-passing function returning the emissions in order. -/

/-- An IPC emission: either a `FLIGHT_STATE_UPDATE` or a
`FLIGHT_GAMEPAD_STATE` message. -/
inductive Emission where
  | stateUpdate (s : FlightControlsState)
  | gamepadState (g : FlightGamepadState)
deriving Repr, DecidableEq

/-- The service fields read or written by `stopCapture`.
`mainWindow` is true when a window is attached and not destroyed;
`device` is true when a device handle is open. -/
structure ServiceState where
  device : Bool
  devicePath : Option String
  deviceName : String
  controllerSlot : ℕ
  lastGamepadState : Option FlightGamepadState
  lastRawBytes : List ℕ
  mainWindow : Bool
deriving Repr, DecidableEq

/-- `sendConnectedState(connected)` (lines 413-440): emits a
`FLIGHT_STATE_UPDATE`, plus a neutral disconnected `FLIGHT_GAMEPAD_STATE`
when `connected` is false; emits nothing without a live window. -/
def sendConnectedState (st : ServiceState) (connected : Bool) : List Emission :=
  if st.mainWindow = false then []
  else
    let update := Emission.stateUpdate
      { connected := connected, deviceName := st.deviceName
        axes := [], buttons := [], hatSwitch := -1, rawBytes := [] }
    if connected = false then
      [update, Emission.gamepadState
        { controllerId := st.controllerSlot, buttons := 0, leftTrigger := 0
          rightTrigger := 0, leftStickX := 0, leftStickY := 0, rightStickX := 0
          rightStickY := 0, connected := false }]
    else [update]

/-- `stopCapture()` (lines 171-188): close the device handle (close errors
are swallowed, so closing is just dropping the handle here), and if a path
was retained, emit the disconnected states and clear the session fields. -/
def stopCapture (st : ServiceState) : ServiceState × List Emission :=
  let st := if st.device then { st with device := false } else st
  if st.devicePath.isSome then
    let ems := sendConnectedState st false
    ({ st with devicePath := none, lastGamepadState := none, lastRawBytes := [] }, ems)
  else (st, [])

/-! ### Spec-side definitions

Definitions written from the specification's wording, to be compared with
the embedded code above (refinement-style claims). -/

/-- Spec wording for the stick scale step: `round(clamp(v,−1,1)·32767)`,
then clamp to `[−32768,32767]`. -/
def specStickScale (v : ℚ) : ℤ :=
  max (-32768) (min 32767 (jsRound (max (-1) (min 1 v) * 32767)))

/-- Spec wording for the trigger scale step: `round(clamp(v,0,1)·255)`,
then clamp to `[0,255]`. -/
def specTriggerScale (v : ℚ) : ℤ :=
  max 0 (min 255 (jsRound (max 0 (min 1 v) * 255)))

/-- The claim's `v` for stick targets: the bipolar (`raw·2 − 1`),
inversion-, signed-deadzone- and curve-adjusted value, before scaling. -/
def stickPipeline (raw : ℚ) (m : AxisMapping) : ℚ :=
  applyStickCurve
    (applyStickDeadzone (if m.inverted then -(raw * 2 - 1) else raw * 2 - 1) m.deadzone)
    m.sensitivity m.curve

/-- The claim's `v` for trigger targets: the inversion-, unsigned-deadzone-
and curve-adjusted value, before scaling. -/
def triggerPipeline (raw : ℚ) (m : AxisMapping) : ℚ :=
  applyCurve (applyDeadzone (if m.inverted then 1 - raw else raw) m.deadzone)
    m.sensitivity m.curve

/-- Spec wording for the signed deadzone, with the mathematical sign
function: `|v| < deadzone ⇒ 0`, else `sign(v)·(|v|−deadzone)/(1−deadzone)`. -/
def specSignedDeadzone (v dz : ℚ) : ℚ :=
  if |v| < dz then 0
  else (if v > 0 then (1 : ℚ) else if v < 0 then -1 else 0) * ((|v| - dz) / (1 - dz))

/-- Spec wording for the raw axis value: read `byteCount` bytes at `byteIdx`
with the declared endianness, reinterpreting as signed when `!unsigned` and
the value exceeds the unsigned midpoint. -/
def specRawValue (data : List ℕ) (byteIdx : ℕ) (a : AxisField) : ℤ :=
  if a.byteCount = 2 then
    let u := if a.littleEndian then data.getD byteIdx 0 + 256 * data.getD (byteIdx + 1) 0
             else 256 * data.getD byteIdx 0 + data.getD (byteIdx + 1) 0
    if a.unsigned = false ∧ u > 32767 then (u : ℤ) - 65536 else (u : ℤ)
  else
    let u := data.getD byteIdx 0
    if a.unsigned = false ∧ u > 127 then (u : ℤ) - 256 else (u : ℤ)

/-- Spec wording for axis normalization:
`(raw − rangeMin) / (rangeMax − rangeMin)` when the range is positive,
else 0. -/
def specNormalize (a : AxisField) (raw : ℤ) : ℚ :=
  if a.rangeMax - a.rangeMin > 0 then ((raw : ℚ) - a.rangeMin) / (a.rangeMax - a.rangeMin)
  else 0

/-- The D-pad bits the claim's 3-neighbor table asserts for a hat position:
positions {7,0,1} assert Up, {1,2,3} Right, {3,4,5} Down, {5,6,7} Left;
a negative (neutral) hat asserts nothing. -/
def dpadBits (hat : ℤ) : ℕ :=
  if hat ≥ 0 then
    (if hat = 0 ∨ hat = 1 ∨ hat = 7 then GAMEPAD_DPAD_UP else 0) |||
    (if hat = 1 ∨ hat = 2 ∨ hat = 3 then GAMEPAD_DPAD_RIGHT else 0) |||
    (if hat = 3 ∨ hat = 4 ∨ hat = 5 then GAMEPAD_DPAD_DOWN else 0) |||
    (if hat = 5 ∨ hat = 6 ∨ hat = 7 then GAMEPAD_DPAD_LEFT else 0)
  else 0

/-- The profile with every axis mapping whose `sourceIndex` is outside
`parsed.axes` and every button mapping whose `sourceIndex` is outside
`parsed.buttons` removed. -/
def pruneProfile (parsed : ParsedReport) (profile : FlightProfile) : FlightProfile :=
  { axisMappings := profile.axisMappings.filter fun m =>
      decide (m.sourceIndex < parsed.axes.length)
    buttonMappings := profile.buttonMappings.filter fun m =>
      decide (m.sourceIndex < parsed.buttons.length) }

/-- The gamepad-state field an `AxisTarget` selects. -/
def targetField (s : FlightGamepadState) : AxisTarget → ℤ
  | AxisTarget.leftStickX => s.leftStickX
  | AxisTarget.leftStickY => s.leftStickY
  | AxisTarget.rightStickX => s.rightStickX
  | AxisTarget.rightStickY => s.rightStickY
  | AxisTarget.leftTrigger => s.leftTrigger
  | AxisTarget.rightTrigger => s.rightTrigger

/-- All four stick fields lie in the int16 range `[-32768, 32767]`. -/
def stickFieldsInRange (s : FlightGamepadState) : Prop :=
  (-32768 ≤ s.leftStickX ∧ s.leftStickX ≤ 32767) ∧
  (-32768 ≤ s.leftStickY ∧ s.leftStickY ≤ 32767) ∧
  (-32768 ≤ s.rightStickX ∧ s.rightStickX ≤ 32767) ∧
  (-32768 ≤ s.rightStickY ∧ s.rightStickY ≤ 32767)

/-! ### Concrete inputs used by counterexamples and witnesses -/

/-- Axis mapping driving the C1 counterexample: linear stick mapping with
deadzone 0 and sensitivity 2 (sensitivity ∈ [0.1, 3.0] per the profile
model), so a full-deflection input gives an adjusted value of magnitude 2. -/
def mC1 : AxisMapping :=
  { sourceIndex := 0, target := AxisTarget.leftStickX, inverted := false
    deadzone := 0, sensitivity := 2, curve := Curve.linear }

/-- Sample whose single axis rests at 0 (bipolar −1). -/
def sC1 : ParsedReport := { axes := [0], buttons := [], hatSwitch := -1 }

/-- Profile holding only `mC1`. -/
def pC1 : FlightProfile := { axisMappings := [mC1], buttonMappings := [] }

/-- The axis field of the spec's round-trip example:
`{byteOffset:0, byteCount:2, littleEndian:true, unsigned:true, rangeMin:0,
rangeMax:1023}`. -/
def axisFieldC3 : AxisField :=
  { byteOffset := 0, byteCount := 2, littleEndian := true, unsigned := true
    rangeMin := 0, rangeMax := 1023 }

/-- The layout of the spec's axis round-trip example. -/
def exampleLayoutC3 : FlightHidReportLayout :=
  { skipReportId := false
    axes := [axisFieldC3]
    buttons := []
    hat := none }

/-- Linear stick mapping with deadzone 0.1 and sensitivity 1. -/
def m4 : AxisMapping :=
  { sourceIndex := 0, target := AxisTarget.leftStickX, inverted := false
    deadzone := 0.1, sensitivity := 1, curve := Curve.linear }

/-- Profile holding only `m4`. -/
def p4 : FlightProfile := { axisMappings := [m4], buttonMappings := [] }

/-- Sample whose axis decodes to 0.55, i.e. bipolar exactly 0.1. -/
def s4a : ParsedReport := { axes := [0.55], buttons := [], hatSwitch := -1 }

/-- Sample whose axis decodes to 1, i.e. bipolar 1. -/
def s4b : ParsedReport := { axes := [1], buttons := [], hatSwitch := -1 }

/-- Expo trigger mapping with deadzone 0 and sensitivity 1. -/
def m5 : AxisMapping :=
  { sourceIndex := 0, target := AxisTarget.leftTrigger, inverted := false
    deadzone := 0, sensitivity := 1, curve := Curve.expo }

/-- Profile holding only `m5`. -/
def p5 : FlightProfile := { axisMappings := [m5], buttonMappings := [] }

/-- Sample whose axis decodes to 0.5, so the deadzone-adjusted trigger value
is exactly 0.5. -/
def s5 : ParsedReport := { axes := [0.5], buttons := [], hatSwitch := -1 }

/-- Profile with no mappings at all. -/
def emptyProfile : FlightProfile := { axisMappings := [], buttonMappings := [] }

/-- A sample with no axes or buttons and the given hat position. -/
def hatSample (h : ℤ) : ParsedReport := { axes := [], buttons := [], hatSwitch := h }

/-- A one-axis (2-byte) and one-button layout used by the C2 witness. -/
def layoutW2 : FlightHidReportLayout :=
  { skipReportId := false
    axes := [{ byteOffset := 0, byteCount := 2, littleEndian := true, unsigned := true
               rangeMin := 0, rangeMax := 255 }]
    buttons := [{ byteOffset := 2, bitIndex := 0 }]
    hat := none }

/-- A layout whose hat byte sits at offset 3, used by the C10 witness. -/
def layoutW10 : FlightHidReportLayout :=
  { skipReportId := false
    axes := []
    buttons := []
    hat := some { byteOffset := 3, bitOffset := 0, bitCount := 4, centerValue := 8 } }

/-- A service state in the middle of an active capture, used by the C9
witness. -/
def stW9 : ServiceState :=
  { device := true, devicePath := some "hid0", deviceName := "Test Stick"
    controllerSlot := 0
    lastGamepadState := some
      { controllerId := 0, buttons := 3, leftTrigger := 10, rightTrigger := 0
        leftStickX := 5, leftStickY := -5, rightStickX := 0, rightStickY := 0
        connected := true }
    lastRawBytes := [1, 2, 3], mainWindow := true }

/-- Two gamepad states that differ only in `connected` (and nothing else),
used by the C7 witness. -/
def gA : FlightGamepadState :=
  { controllerId := 0, buttons := 5, leftTrigger := 1, rightTrigger := 2
    leftStickX := 3, leftStickY := 4, rightStickX := 5, rightStickY := 6
    connected := true }

/-- `gA` with `connected := false` and a different `controllerId`. -/
def gB : FlightGamepadState :=
  { controllerId := 1, buttons := 5, leftTrigger := 1, rightTrigger := 2
    leftStickX := 3, leftStickY := 4, rightStickX := 5, rightStickY := 6
    connected := false }

/-! ## Theorems -/

/-- When the field's bytes fit the buffer (or the field defaults), the
fallible decode of one axis field returns exactly its total counterpart,
provided `byteCount` is 1 or 2 as the layout model requires. -/
theorem decodeAxisField_eq (bytes : List ℕ) (offset : ℕ) (a : AxisField)
    (h : a.byteCount = 1 ∨ a.byteCount = 2) :
    decodeAxisField bytes offset a = some (decodeAxisFieldT bytes offset a) := by
  unfold decodeAxisField decodeAxisFieldT
  by_cases hg : offset + a.byteOffset + a.byteCount > bytes.length
  · simp [hg]
  · rcases h with h1 | h2
    · have hlt : offset + a.byteOffset < bytes.length := by omega
      simp [hg, h1, readUInt8, hlt]
      split <;> rfl
    · have hle : offset + a.byteOffset + 2 ≤ bytes.length := by omega
      by_cases hen : a.littleEndian
      · simp [hg, h2, readUInt16LE, hle, hen]
        split <;> rfl
      · simp [hg, h2, readUInt16BE, hle, hen]
        split <;> rfl

/-- The fallible decode of one button field never fails. -/
theorem decodeButtonField_eq (bytes : List ℕ) (offset : ℕ) (b : ButtonField) :
    decodeButtonField bytes offset b = some (decodeButtonFieldT bytes offset b) := by
  unfold decodeButtonField decodeButtonFieldT
  by_cases hg : offset + b.byteOffset ≥ bytes.length
  · simp [hg]
  · have hlt : offset + b.byteOffset < bytes.length := by omega
    simp [hg, readUInt8, hlt]

/-- The fallible decode of the hat field never fails. -/
theorem decodeHat_eq (bytes : List ℕ) (offset : ℕ) (h : Option HatField) :
    decodeHat bytes offset h = some (decodeHatT bytes offset h) := by
  cases h with
  | none => rfl
  | some hf =>
    unfold decodeHat decodeHatT
    by_cases hlt : offset + hf.byteOffset < bytes.length
    · simp [hlt, readUInt8]
    · simp [hlt]

/-- The axis loop succeeds and decodes fields pointwise when every field's
`byteCount` is 1 or 2. -/
theorem parseAxes_eq (bytes : List ℕ) (offset : ℕ) (l : List AxisField)
    (h : ∀ a ∈ l, a.byteCount = 1 ∨ a.byteCount = 2) :
    parseAxes bytes offset l = some (l.map (decodeAxisFieldT bytes offset)) := by
  induction l with
  | nil => rfl
  | cons a t ih =>
    have ha := h a (List.mem_cons_self a t)
    have ht : ∀ x ∈ t, x.byteCount = 1 ∨ x.byteCount = 2 :=
      fun x hx => h x (List.mem_cons_of_mem a hx)
    simp [parseAxes, decodeAxisField_eq bytes offset a ha, ih ht]

/-- The button loop always succeeds and decodes fields pointwise. -/
theorem parseButtons_eq (bytes : List ℕ) (offset : ℕ) (l : List ButtonField) :
    parseButtons bytes offset l = some (l.map (decodeButtonFieldT bytes offset)) := by
  induction l with
  | nil => rfl
  | cons b t ih =>
    simp [parseButtons, decodeButtonField_eq bytes offset b, ih]

/-- Every decoded axis value lies in `[0, 1]`. -/
theorem decodeAxisFieldT_bounds (bytes : List ℕ) (offset : ℕ) (a : AxisField) :
    0 ≤ decodeAxisFieldT bytes offset a ∧ decodeAxisFieldT bytes offset a ≤ 1 := by
  unfold decodeAxisFieldT
  by_cases hc : bytes.length < offset + a.byteOffset + a.byteCount
  · simp [hc]
  · simp only [gt_iff_lt, hc, if_false]
    exact ⟨le_max_left 0 _, max_le (by norm_num) (min_le_left _ _)⟩

/-- C2: for every buffer and layout (whose axis fields have `byteCount` 1 or
2, as the layout type requires), `parseReport` never hits an out-of-bounds
read — it returns exactly the per-field total decode; an axis field whose
bytes extend past the end of the buffer decodes to 0, a button field whose
byte lies past the end decodes to false, and every other field of the same
report is still decoded by the normal per-field function. -/
theorem flight_C2 (data : List ℕ) (layout : FlightHidReportLayout)
    (hbc : ∀ a ∈ layout.axes, a.byteCount = 1 ∨ a.byteCount = 2) :
    parseReport data layout = some (decode data layout)
    ∧ (∀ i : ℕ, ∀ a : AxisField, layout.axes[i]? = some a →
        (decode data layout).axes[i]?
          = some (decodeAxisFieldT data (if layout.skipReportId then 1 else 0) a)
        ∧ ((if layout.skipReportId then 1 else 0) + a.byteOffset + a.byteCount > data.length →
           decodeAxisFieldT data (if layout.skipReportId then 1 else 0) a = 0))
    ∧ (∀ j : ℕ, ∀ b : ButtonField, layout.buttons[j]? = some b →
        (decode data layout).buttons[j]?
          = some (decodeButtonFieldT data (if layout.skipReportId then 1 else 0) b)
        ∧ ((if layout.skipReportId then 1 else 0) + b.byteOffset ≥ data.length →
           decodeButtonFieldT data (if layout.skipReportId then 1 else 0) b = false)) := by
  refine ⟨?_, ?_, ?_⟩
  · simp only [parseReport, decode]
    rw [parseAxes_eq _ _ _ hbc, parseButtons_eq, decodeHat_eq]
    rfl
  · intro i a ha
    constructor
    · unfold decode
      simp [List.getElem?_map, ha]
    · intro hshort
      unfold decodeAxisFieldT
      simp [hshort]
  · intro j b hb
    constructor
    · unfold decode
      simp [List.getElem?_map, hb]
    · intro hshort
      unfold decodeButtonFieldT
      simp [hshort]

/-- C2 witness: on the empty buffer with a 2-byte-axis/1-button layout,
`parseReport` succeeds and both fields take their defaults. -/
theorem flight_C2_witness :
    parseReport [] layoutW2 = some (decode [] layoutW2)
    ∧ (decode [] layoutW2).axes[0]? = some 0
    ∧ (decode [] layoutW2).buttons[0]? = some false := by
  have h := flight_C2 [] layoutW2 (by intro a ha; simp [layoutW2] at ha; simp [ha])
  refine ⟨h.1, ?_, ?_⟩
  · have h2 := h.2.1 0
      { byteOffset := 0, byteCount := 2, littleEndian := true, unsigned := true
        rangeMin := 0, rangeMax := 255 } (by simp [layoutW2])
    rw [h2.1, h2.2 (by simp [layoutW2])]
  · have h3 := h.2.2 0 { byteOffset := 2, bitIndex := 0 } (by simp [layoutW2])
    rw [h3.1, h3.2 (by simp [layoutW2])]

/-- C3: every decoded axis lies in `[0, 1]`; an in-range axis field decodes
to the clamped normalization of the endianness-read, sign-reinterpreted raw
value; and the layout `{byteOffset:0, byteCount:2, littleEndian, unsigned,
rangeMin:0, rangeMax:1023}` on bytes `[0xFF, 0x03]` yields axis 1.0. -/
theorem flight_C3 (data : List ℕ) (layout : FlightHidReportLayout) :
    (∀ q ∈ (decode data layout).axes, 0 ≤ q ∧ q ≤ 1)
    ∧ (∀ offset : ℕ, ∀ a : AxisField,
        ¬ offset + a.byteOffset + a.byteCount > data.length →
        decodeAxisFieldT data offset a
          = max 0 (min 1 (specNormalize a (specRawValue data (offset + a.byteOffset) a))))
    ∧ (decode [255, 3] exampleLayoutC3).axes = [1] := by
  refine ⟨?_, ?_, ?_⟩
  · intro q hq
    unfold decode at hq
    simp only [List.mem_map] at hq
    obtain ⟨a, _, rfl⟩ := hq
    exact decodeAxisFieldT_bounds _ _ _
  · intro offset a h
    unfold decodeAxisFieldT specNormalize specRawValue
    rw [if_neg h]
  · norm_num [decode, decodeAxisFieldT, decodeHatT, exampleLayoutC3, axisFieldC3]

/-- C3 witness: the in-range decode formula and the round-trip example at
the concrete field and bytes. -/
theorem flight_C3_witness :
    decodeAxisFieldT [255, 3] 0 axisFieldC3
      = max 0 (min 1 (specNormalize axisFieldC3 (specRawValue [255, 3] 0 axisFieldC3)))
    ∧ (decode [255, 3] exampleLayoutC3).axes = [1] := by
  have h := flight_C3 [255, 3] exampleLayoutC3
  exact ⟨h.2.1 0 axisFieldC3 (by simp [axisFieldC3]), h.2.2⟩

/-- C10: when the layout defines a hat field whose byte lies past the end of
the buffer, the decoded `hatSwitch` defaults to −1 (neutral/centered). -/
theorem flight_C10 (data : List ℕ) (layout : FlightHidReportLayout) (hf : HatField)
    (hh : layout.hat = some hf)
    (hshort : (if layout.skipReportId then 1 else 0) + hf.byteOffset ≥ data.length) :
    (decode data layout).hatSwitch = -1 := by
  unfold decode
  simp [hh, decodeHatT, Nat.not_lt.mpr hshort]

/-- C10 witness: a 2-byte buffer with the hat byte at offset 3. -/
theorem flight_C10_witness : (decode [1, 2] layoutW10).hatSwitch = -1 :=
  flight_C10 [1, 2] layoutW10
    { byteOffset := 3, bitOffset := 0, bitCount := 4, centerValue := 8 }
    rfl (by simp [layoutW10])

/-- A fold is preserved by a step-wise invariant. -/
theorem foldl_preserve {α β : Type} (P : β → Prop) (f : β → α → β) (l : List α)
    (hf : ∀ st a, P st → P (f st a)) : ∀ st : β, P st → P (l.foldl f st) := by
  induction l with
  | nil => exact fun st h => h
  | cons a t ih => exact fun st h => ih (f st a) (hf st a h)

/-- Folding over a filtered list equals folding over the full list when the
dropped elements act as the identity. -/
theorem foldl_filter {α β : Type} (f : β → α → β) (p : α → Bool) (l : List α)
    (hf : ∀ st a, p a = false → f st a = st) :
    ∀ st : β, (l.filter p).foldl f st = l.foldl f st := by
  induction l with
  | nil => intro st; rfl
  | cons a t ih =>
    intro st
    by_cases hp : p a
    · simp [List.filter_cons, hp, ih]
    · have hpf : p a = false := by simpa using hp
      simp [List.filter_cons, hpf, hf st a hpf, ih]

/-- An axis mapping whose `sourceIndex` is out of range changes nothing. -/
theorem applyAxisMapping_oor (axes : List ℚ) (st : FlightGamepadState)
    (m : AxisMapping) (h : ¬ m.sourceIndex < axes.length) :
    applyAxisMapping axes st m = st := by
  unfold applyAxisMapping
  rw [dif_neg h]

/-- A button mapping whose `sourceIndex` is out of range changes nothing. -/
theorem applyButtonMapping_oor (btns : List Bool) (st : FlightGamepadState)
    (m : ButtonMapping) (h : ¬ m.sourceIndex < btns.length) :
    applyButtonMapping btns st m = st := by
  unfold applyButtonMapping
  rw [dif_neg h]

/-- C8: `mapToGamepad` yields the same state on a profile as on the profile
with every out-of-range axis and button mapping removed — out-of-range
entries are silently inert. -/
theorem flight_C8 (slot : ℕ) (parsed : ParsedReport) (profile : FlightProfile) :
    mapToGamepad slot parsed profile
      = mapToGamepad slot parsed (pruneProfile parsed profile) := by
  have h1 : (pruneProfile parsed profile).axisMappings
      = profile.axisMappings.filter (fun m => decide (m.sourceIndex < parsed.axes.length)) :=
    rfl
  have h2 : (pruneProfile parsed profile).buttonMappings
      = profile.buttonMappings.filter (fun m => decide (m.sourceIndex < parsed.buttons.length)) :=
    rfl
  simp only [mapToGamepad, mapToGamepadPreHat, h1, h2,
    foldl_filter (applyAxisMapping parsed.axes)
      (fun m => decide (m.sourceIndex < parsed.axes.length)) profile.axisMappings
      (fun st a ha => applyAxisMapping_oor _ st a (by simpa using ha)),
    foldl_filter (applyButtonMapping parsed.buttons)
      (fun m => decide (m.sourceIndex < parsed.buttons.length)) profile.buttonMappings
      (fun st a ha => applyButtonMapping_oor _ st a (by simpa using ha))]

/-- C7: the change detector returns true iff the previous state is absent or
one of the seven compared fields differs; states that agree on all seven
fields (so differ at most in `connected`/`controllerId`) are unchanged. -/
theorem flight_C7 (last : Option FlightGamepadState) (n : FlightGamepadState) :
    (hasGamepadStateChanged last n = true ↔
      last = none ∨ ∃ prev, last = some prev ∧
        (prev.buttons ≠ n.buttons ∨ prev.leftTrigger ≠ n.leftTrigger ∨
         prev.rightTrigger ≠ n.rightTrigger ∨ prev.leftStickX ≠ n.leftStickX ∨
         prev.leftStickY ≠ n.leftStickY ∨ prev.rightStickX ≠ n.rightStickX ∨
         prev.rightStickY ≠ n.rightStickY))
    ∧ (∀ prev : FlightGamepadState, last = some prev →
        prev.buttons = n.buttons → prev.leftTrigger = n.leftTrigger →
        prev.rightTrigger = n.rightTrigger → prev.leftStickX = n.leftStickX →
        prev.leftStickY = n.leftStickY → prev.rightStickX = n.rightStickX →
        prev.rightStickY = n.rightStickY → hasGamepadStateChanged last n = false) := by
  constructor
  · cases last with
    | none => simp [hasGamepadStateChanged]
    | some prev =>
      simp only [hasGamepadStateChanged, Bool.or_eq_true, bne_iff_ne, Option.some.injEq,
        reduceCtorEq, false_or]
      constructor
      · rintro h
        exact ⟨prev, rfl, by tauto⟩
      · rintro ⟨p, hp, h⟩
        cases hp
        tauto
  · rintro prev rfl h1 h2 h3 h4 h5 h6 h7
    simp [hasGamepadStateChanged, h1, h2, h3, h4, h5, h6, h7]

/-- C7 witness: two states differing only in `connected` and `controllerId`
are reported unchanged. -/
theorem flight_C7_witness : hasGamepadStateChanged (some gA) gB = false :=
  (flight_C7 (some gA) gB).2 gA rfl rfl rfl rfl rfl rfl rfl rfl

/-- C9: stopping an active capture (device path retained, live window)
emits exactly one disconnected state-update followed by exactly one all-zero
disconnected gamepad state, clears the retained session state, and a second
`stopCapture` emits nothing and changes nothing. -/
theorem flight_C9 (st : ServiceState) (hpath : st.devicePath.isSome = true)
    (hwin : st.mainWindow = true) :
    (stopCapture st).2
      = [Emission.stateUpdate
          { connected := false, deviceName := st.deviceName, axes := [], buttons := []
            hatSwitch := -1, rawBytes := [] },
         Emission.gamepadState
          { controllerId := st.controllerSlot, buttons := 0, leftTrigger := 0
            rightTrigger := 0, leftStickX := 0, leftStickY := 0, rightStickX := 0
            rightStickY := 0, connected := false }]
    ∧ (stopCapture st).1.device = false
    ∧ (stopCapture st).1.devicePath = none
    ∧ (stopCapture st).1.lastGamepadState = none
    ∧ (stopCapture st).1.lastRawBytes = []
    ∧ stopCapture (stopCapture st).1 = ((stopCapture st).1, []) := by
  by_cases hd : st.device <;>
    simp [stopCapture, sendConnectedState, hd, hpath, hwin]

/-- C9 witness: stopping the concrete mid-capture state `stW9`. -/
theorem flight_C9_witness :
    (stopCapture stW9).2
      = [Emission.stateUpdate
          { connected := false, deviceName := "Test Stick", axes := [], buttons := []
            hatSwitch := -1, rawBytes := [] },
         Emission.gamepadState
          { controllerId := 0, buttons := 0, leftTrigger := 0, rightTrigger := 0
            leftStickX := 0, leftStickY := 0, rightStickX := 0, rightStickY := 0
            connected := false }]
    ∧ stopCapture (stopCapture stW9).1 = ((stopCapture stW9).1, []) := by
  have h := flight_C9 stW9 rfl rfl
  exact ⟨h.1, h.2.2.2.2.2⟩

/-- C6: `mapToGamepad` ORs D-pad bits into the button bitmask by the exact
3-neighbor table (Up for {7,0,1}, Right for {1,2,3}, Down for {3,4,5},
Left for {5,6,7}); hat 0 asserts Up only, hat 1 asserts Up and Right, and
hat −1 asserts no D-pad bit. -/
theorem flight_C6 (slot : ℕ) (parsed : ParsedReport) (profile : FlightProfile) :
    (mapToGamepad slot parsed profile).buttons
      = (mapToGamepadPreHat slot parsed profile).buttons ||| dpadBits parsed.hatSwitch
    ∧ (mapToGamepad 0 (hatSample 0) emptyProfile).buttons = GAMEPAD_DPAD_UP
    ∧ (mapToGamepad 0 (hatSample 1) emptyProfile).buttons
        = GAMEPAD_DPAD_UP ||| GAMEPAD_DPAD_RIGHT
    ∧ (mapToGamepad 0 (hatSample (-1)) emptyProfile).buttons = 0 := by
  refine ⟨?_, ?_, ?_, ?_⟩
  · simp only [mapToGamepad, dpadBits]
    by_cases h0 : parsed.hatSwitch ≥ 0
    · simp only [h0, if_true]
      by_cases cu : parsed.hatSwitch = 0 ∨ parsed.hatSwitch = 1 ∨ parsed.hatSwitch = 7 <;>
      by_cases cr : parsed.hatSwitch = 1 ∨ parsed.hatSwitch = 2 ∨ parsed.hatSwitch = 3 <;>
      by_cases cd : parsed.hatSwitch = 3 ∨ parsed.hatSwitch = 4 ∨ parsed.hatSwitch = 5 <;>
      by_cases cl : parsed.hatSwitch = 5 ∨ parsed.hatSwitch = 6 ∨ parsed.hatSwitch = 7 <;>
      simp [cu, cr, cd, cl, Nat.lor_assoc]
    · simp [h0]
  · simp [mapToGamepad, mapToGamepadPreHat, hatSample, emptyProfile, dpadBits]
  · simp [mapToGamepad, mapToGamepadPreHat, hatSample, emptyProfile, dpadBits]
  · simp [mapToGamepad, mapToGamepadPreHat, hatSample, emptyProfile, dpadBits]

/-- C6 witness: hat position 0 asserts the Up bit only. -/
theorem flight_C6_witness :
    (mapToGamepad 0 (hatSample 0) emptyProfile).buttons = GAMEPAD_DPAD_UP :=
  (flight_C6 0 (hatSample 0) emptyProfile).2.1

/-- The scaled stick value always lies in `[-32768, 32767]`. -/
theorem stickValue_bounds (raw : ℚ) (m : AxisMapping) :
    -32768 ≤ stickValue raw m ∧ stickValue raw m ≤ 32767 := by
  unfold stickValue
  exact ⟨le_max_left _ _, max_le (by norm_num) (min_le_left _ _)⟩

/-- One axis-mapping step keeps all stick fields in the int16 range. -/
theorem applyAxisMapping_sticks (axes : List ℚ) (st : FlightGamepadState)
    (m : AxisMapping) (hst : stickFieldsInRange st) :
    stickFieldsInRange (applyAxisMapping axes st m) := by
  by_cases h : m.sourceIndex < axes.length
  · simp only [applyAxisMapping, dif_pos h]
    by_cases htr : m.target = AxisTarget.leftTrigger ∨ m.target = AxisTarget.rightTrigger
    · rw [if_pos htr]
      by_cases hlt : m.target = AxisTarget.leftTrigger
      · rw [if_pos hlt]
        simpa [stickFieldsInRange] using hst
      · rw [if_neg hlt]
        simpa [stickFieldsInRange] using hst
    · rw [if_neg htr]
      have hb := stickValue_bounds (axes.get ⟨m.sourceIndex, h⟩) m
      cases hmt : m.target <;> simp_all [stickFieldsInRange]
  · rw [applyAxisMapping_oor axes st m h]
    exact hst

/-- One button-mapping step keeps all stick fields in the int16 range. -/
theorem applyButtonMapping_sticks (btns : List Bool) (st : FlightGamepadState)
    (m : ButtonMapping) (hst : stickFieldsInRange st) :
    stickFieldsInRange (applyButtonMapping btns st m) := by
  unfold applyButtonMapping
  split
  · split
    · simpa [stickFieldsInRange] using hst
    · exact hst
  · exact hst

/-- Hat folding touches only the button bitmask: all four stick fields of
`mapToGamepad` equal those before the hat stage. -/
theorem mapToGamepad_sticks_eq (slot : ℕ) (parsed : ParsedReport)
    (profile : FlightProfile) :
    (mapToGamepad slot parsed profile).leftStickX
      = (mapToGamepadPreHat slot parsed profile).leftStickX
    ∧ (mapToGamepad slot parsed profile).leftStickY
      = (mapToGamepadPreHat slot parsed profile).leftStickY
    ∧ (mapToGamepad slot parsed profile).rightStickX
      = (mapToGamepadPreHat slot parsed profile).rightStickX
    ∧ (mapToGamepad slot parsed profile).rightStickY
      = (mapToGamepadPreHat slot parsed profile).rightStickY := by
  simp only [mapToGamepad]
  split_ifs <;> simp

/-- Every state produced by `mapToGamepad` has all stick fields in
`[-32768, 32767]`. -/
theorem mapToGamepad_sticks_range (slot : ℕ) (parsed : ParsedReport)
    (profile : FlightProfile) :
    stickFieldsInRange (mapToGamepad slot parsed profile) := by
  have hpre : stickFieldsInRange (mapToGamepadPreHat slot parsed profile) := by
    unfold mapToGamepadPreHat
    refine foldl_preserve stickFieldsInRange _ _
      (fun st a hh => applyButtonMapping_sticks _ st a hh) _ ?_
    refine foldl_preserve stickFieldsInRange _ _
      (fun st a hh => applyAxisMapping_sticks _ st a hh) _ ?_
    norm_num [stickFieldsInRange]
  have he := mapToGamepad_sticks_eq slot parsed profile
  unfold stickFieldsInRange at hpre ⊢
  rw [he.1, he.2.1, he.2.2.1, he.2.2.2]
  exact hpre

/-- C1 counterexample: with the stick mapping `mC1` (deadzone 0,
sensitivity 2, linear) on an axis resting at 0, the adjusted value is −2;
the code writes −32768 into `leftStickX`, while the claim's formula
`round(clamp(v,−1,1)·32767)` further clamped gives −32767 — so the claimed
equality fails and the written value falls below −32767. -/
theorem flight_C1_counterexample :
    stickPipeline 0 mC1 = -2
    ∧ (mapToGamepad 0 sC1 pC1).leftStickX = -32768
    ∧ specStickScale (stickPipeline 0 mC1) = -32767
    ∧ (mapToGamepad 0 sC1 pC1).leftStickX ≠ specStickScale (stickPipeline 0 mC1)
    ∧ (mapToGamepad 0 sC1 pC1).leftStickX < -32767 := by
  have h1 : stickPipeline 0 mC1 = -2 := by
    norm_num [stickPipeline, mC1, applyStickDeadzone, applyStickCurve, abs_of_nonpos]
  have h2 : (mapToGamepad 0 sC1 pC1).leftStickX = -32768 := by
    norm_num [mapToGamepad, mapToGamepadPreHat, applyAxisMapping, stickValue,
      applyStickDeadzone, applyStickCurve, jsRound, sC1, pC1, mC1, abs_of_nonpos]
    rfl
  have h3 : specStickScale (-2 : ℚ) = -32767 := by
    norm_num [specStickScale, jsRound, min_def, max_def]
  refine ⟨h1, h2, by rw [h1]; exact h3, by rw [h1, h2, h3]; norm_num, by rw [h2]; norm_num⟩

/-- C1 (amended): for every stick-target axis mapping in range, the code
writes `clamp(round(v·32767), −32768, 32767)` — the clamp is applied after
the multiply/round, with no pre-clamp of `v` to `[−1, 1]` — and every stick
field `mapToGamepad` produces lies in `[−32768, 32767]` (the lower end
−32768 is reachable). -/
theorem flight_C1_amended (axes : List ℚ) (st : FlightGamepadState) (m : AxisMapping)
    (h : m.sourceIndex < axes.length)
    (ht : m.target ≠ AxisTarget.leftTrigger ∧ m.target ≠ AxisTarget.rightTrigger) :
    targetField (applyAxisMapping axes st m) m.target
      = max (-32768) (min 32767
          (jsRound (stickPipeline (axes.get ⟨m.sourceIndex, h⟩) m * 32767)))
    ∧ ∀ (slot : ℕ) (parsed : ParsedReport) (profile : FlightProfile),
        stickFieldsInRange (mapToGamepad slot parsed profile) := by
  constructor
  · have hsv : stickValue (axes.get ⟨m.sourceIndex, h⟩) m
        = max (-32768) (min 32767
            (jsRound (stickPipeline (axes.get ⟨m.sourceIndex, h⟩) m * 32767))) := rfl
    rw [← hsv]
    simp only [applyAxisMapping, dif_pos h]
    have htr : ¬ (m.target = AxisTarget.leftTrigger ∨ m.target = AxisTarget.rightTrigger) := by
      tauto
    rw [if_neg htr]
    cases hmt : m.target with
    | leftTrigger => exact absurd hmt ht.1
    | rightTrigger => exact absurd hmt ht.2
    | leftStickX => simp [targetField]
    | leftStickY => simp [targetField]
    | rightStickX => simp [targetField]
    | rightStickY => simp [targetField]
  · exact fun slot parsed profile => mapToGamepad_sticks_range slot parsed profile

/-- C1 witness: the amended statement applied to the concrete mapping `mC1`
at an axis resting at 0. -/
theorem flight_C1_witness :
    targetField (applyAxisMapping [(0 : ℚ)] gA mC1) mC1.target
      = max (-32768) (min 32767
          (jsRound (stickPipeline ([(0 : ℚ)].get ⟨mC1.sourceIndex, by simp [mC1]⟩) mC1 * 32767)))
    ∧ stickFieldsInRange (mapToGamepad 0 sC1 pC1) := by
  have h := flight_C1_amended [(0 : ℚ)] gA mC1 (by simp [mC1]) (by simp [mC1])
  exact ⟨h.1, h.2 0 sC1 pC1⟩

/-- C4: for deadzone in `[0, 0.5]` the signed stick deadzone agrees with the
spec's `sign(v)·(|v|−deadzone)/(1−deadzone)` formula (0 inside the
deadzone); with deadzone 0.1 an input producing bipolar exactly 0.1 maps to
stick value 0, and one producing 1.0 (sensitivity 1, linear) maps to
32767. -/
theorem flight_C4 (v dz : ℚ) (h0 : 0 ≤ dz) (hhalf : dz ≤ 1 / 2) :
    applyStickDeadzone v dz = specSignedDeadzone v dz
    ∧ (mapToGamepad 0 s4a p4).leftStickX = 0
    ∧ (mapToGamepad 0 s4b p4).leftStickX = 32767 := by
  have hrange : dz ≤ 1 / 2 := hhalf
  refine ⟨?_, ?_, ?_⟩
  · unfold applyStickDeadzone specSignedDeadzone
    by_cases habs : |v| < dz
    · simp [habs]
    · rcases lt_trichotomy v 0 with hv | hv | hv
      · have hge : ¬ v ≥ 0 := not_le.mpr hv
        have hgt : ¬ v > 0 := not_lt.mpr (le_of_lt hv)
        simp [habs, hge, hgt, hv]
      · subst hv
        have hdz : dz ≤ 0 := by
          by_contra hc
          push_neg at hc
          exact habs (by simpa using hc)
        have hdz0 : dz = 0 := le_antisymm hdz h0
        simp [habs, hdz0]
      · have hge : v ≥ 0 := le_of_lt hv
        simp [habs, hge, hv]
  · norm_num [mapToGamepad, mapToGamepadPreHat, applyAxisMapping, stickValue,
      applyStickDeadzone, applyStickCurve, jsRound, s4a, p4, m4,
      abs_of_nonneg, abs_of_nonpos]
    rfl
  · norm_num [mapToGamepad, mapToGamepadPreHat, applyAxisMapping, stickValue,
      applyStickDeadzone, applyStickCurve, jsRound, s4b, p4, m4,
      abs_of_nonneg, abs_of_nonpos]
    rfl

/-- C4 witness: the deadzone formula at `v = 1/4`, `deadzone = 1/10`, plus
the boundary example. -/
theorem flight_C4_witness :
    applyStickDeadzone (1 / 4) (1 / 10) = specSignedDeadzone (1 / 4) (1 / 10)
    ∧ (mapToGamepad 0 s4a p4).leftStickX = 0 := by
  have h := flight_C4 (1 / 4) (1 / 10) (by norm_num) (by norm_num)
  exact ⟨h.1, h.2.1⟩

/-- Clamping after round (as the code does for triggers) agrees with the
spec's clamp-before-scale formula `round(clamp(v,0,1)·255)` then clamp, for
every rational `v`. -/
theorem triggerScale_eq (v : ℚ) :
    max 0 (min 255 (jsRound (v * 255))) = specTriggerScale v := by
  unfold specTriggerScale jsRound
  rcases le_or_lt v 0 with hv | hv
  · have hminv : min (1 : ℚ) v = v := min_eq_right (by linarith)
    have hmaxv : max (0 : ℚ) v = 0 := max_eq_left hv
    rw [hminv, hmaxv]
    have hx : ⌊v * 255 + 1 / 2⌋ ≤ 0 := by
      have hle : v * 255 + 1 / 2 ≤ 1 / 2 := by nlinarith
      calc ⌊v * 255 + 1 / 2⌋ ≤ ⌊(1 : ℚ) / 2⌋ := Int.floor_le_floor hle
        _ = 0 := by norm_num
    have hm : min (255 : ℤ) ⌊v * 255 + 1 / 2⌋ = ⌊v * 255 + 1 / 2⌋ :=
      min_eq_right (by omega)
    rw [hm, max_eq_left hx]
    norm_num
  · rcases le_or_lt v 1 with hv1 | hv1
    · rw [min_eq_right hv1, max_eq_right (le_of_lt hv)]
    · rw [min_eq_left (le_of_lt hv1), show max (0 : ℚ) 1 = 1 by norm_num]
      have hx : (255 : ℤ) ≤ ⌊v * 255 + 1 / 2⌋ := by
        have h255 : (255 : ℚ) + 1 / 2 ≤ v * 255 + 1 / 2 := by nlinarith
        calc (255 : ℤ) = ⌊(255 : ℚ) + 1 / 2⌋ := by norm_num
          _ ≤ ⌊v * 255 + 1 / 2⌋ := Int.floor_le_floor h255
      rw [min_eq_left hx]
      norm_num

/-- C5: for every in-range trigger-target axis mapping, the written trigger
field equals `round(clamp(v,0,1)·255)` clamped to `[0,255]`, where `v` is
the inversion-, unsigned-deadzone- and curve-adjusted value; with expo
curve and sensitivity 1, a deadzone-adjusted value of 0.5 produces trigger
output 64. -/
theorem flight_C5 (axes : List ℚ) (st : FlightGamepadState) (m : AxisMapping)
    (h : m.sourceIndex < axes.length) :
    ((m.target = AxisTarget.leftTrigger →
        (applyAxisMapping axes st m).leftTrigger
          = specTriggerScale (triggerPipeline (axes.get ⟨m.sourceIndex, h⟩) m))
     ∧ (m.target = AxisTarget.rightTrigger →
        (applyAxisMapping axes st m).rightTrigger
          = specTriggerScale (triggerPipeline (axes.get ⟨m.sourceIndex, h⟩) m)))
    ∧ applyCurve (1 / 2) 1 Curve.expo = 1 / 4
    ∧ jsRound (1 / 4 * 255) = 64
    ∧ (mapToGamepad 0 s5 p5).leftTrigger = 64 := by
  have htv : triggerValue (axes.get ⟨m.sourceIndex, h⟩) m
      = max 0 (min 255 (jsRound (triggerPipeline (axes.get ⟨m.sourceIndex, h⟩) m * 255))) :=
    rfl
  refine ⟨⟨?_, ?_⟩, ?_, ?_, ?_⟩
  · intro hlt
    simp only [applyAxisMapping, dif_pos h]
    simp [hlt]
    rw [← triggerScale_eq]
    exact htv
  · intro hrt
    simp only [applyAxisMapping, dif_pos h]
    simp [hrt]
    rw [← triggerScale_eq]
    exact htv
  · norm_num [applyCurve]
  · norm_num [jsRound]
  · norm_num [mapToGamepad, mapToGamepadPreHat, applyAxisMapping, triggerValue,
      applyDeadzone, applyCurve, jsRound, s5, p5, m5]

/-- C5 witness: the trigger formula at the concrete expo mapping `m5` on an
axis at 0.5, producing output 64. -/
theorem flight_C5_witness :
    (applyAxisMapping [(1 : ℚ) / 2] gA m5).leftTrigger
      = specTriggerScale (triggerPipeline ([(1 : ℚ) / 2].get ⟨m5.sourceIndex, by simp [m5]⟩) m5)
    ∧ (mapToGamepad 0 s5 p5).leftTrigger = 64 := by
  have h := flight_C5 [(1 : ℚ) / 2] gA m5 (by simp [m5])
  exact ⟨h.1.1 rfl, h.2.2.2⟩

end Flight
